import Mathlib

/-!
Verification of the TTFB attribution module (`src/attribution/onTTFB.ts`)
of the web-vitals library, shallowly embedded in Lean 4.

Timestamps and durations (`DOMHighResTimeStamp`) are modelled as rationals.
The mutation of `metric.attribution` performed by `attributeTTFB` is
modelled as a pure function returning the updated metric.
-/

namespace WebVitals

/-- The slice of a `PerformanceNavigationTiming` entry read by `attributeTTFB`.
`activationStart` is optional in the browser API; the code reads it as
`navEntry.activationStart || 0`, i.e. `0` when absent or when the recorded
number is `0` (falsy). -/
structure NavigationEntry where
  activationStart : Option ℚ
  domainLookupStart : ℚ
  connectStart : ℚ
  requestStart : ℚ
deriving DecidableEq, Repr

/-- The TTFB attribution breakdown object built by `attributeTTFB`. -/
structure TTFBAttribution where
  waitingTime : ℚ
  dnsTime : ℚ
  connectionTime : ℚ
  requestTime : ℚ
deriving DecidableEq, Repr

/-- The TTFB metric object (`TTFBMetricWithAttribution`): `attribution` is
absent (`none`) until `attributeTTFB` has run. -/
structure TTFBMetric where
  name : String
  value : ℚ
  delta : ℚ
  id : String
  entries : List NavigationEntry
  navigationType : String
  attribution : Option TTFBAttribution
deriving DecidableEq, Repr

/-- `navEntry.activationStart || 0`: the recorded activation offset, or `0`
when the field is absent (a falsy recorded `0` also yields `0`, which
coincides with the recorded value). -/
def activationStartOf (e : NavigationEntry) : ℚ :=
  e.activationStart.getD 0

/-- `Math.max(0, navEntry.domainLookupStart - activationStart)`. -/
def dnsStartOf (e : NavigationEntry) : ℚ :=
  max 0 (e.domainLookupStart - activationStartOf e)

/-- `Math.max(0, navEntry.connectStart - activationStart)`. -/
def connectStartOf (e : NavigationEntry) : ℚ :=
  max 0 (e.connectStart - activationStartOf e)

/-- `Math.max(0, navEntry.requestStart - activationStart)`. -/
def requestStartOf (e : NavigationEntry) : ℚ :=
  max 0 (e.requestStart - activationStartOf e)

/-- `attributeTTFB` from `src/attribution/onTTFB.ts`: if the metric has at
least one entry, derive the four components from the first entry's
shifted-and-clamped start points and the metric value; otherwise set all
four components to `0`. -/
def attributeTTFB (metric : TTFBMetric) : TTFBMetric :=
  match metric.entries with
  | navEntry :: _ =>
      { metric with
        attribution := some
          { waitingTime := dnsStartOf navEntry
            dnsTime := connectStartOf navEntry - dnsStartOf navEntry
            connectionTime := requestStartOf navEntry - connectStartOf navEntry
            requestTime := metric.value - requestStartOf navEntry } }
  | [] =>
      { metric with
        attribution := some
          { waitingTime := 0
            dnsTime := 0
            connectionTime := 0
            requestTime := 0 } }

/-- The callback that the attribution-enabled `onTTFB` registers with the
underlying unattributed `onTTFB` (lines 61–66): on one delivery of `metric`
it runs `attributeTTFB` and then invokes `onReport` once. Modelled as the
list of arguments `onReport` receives during that one delivery. -/
def onTTFBReportCalls (metric : TTFBMetric) : List TTFBMetric :=
  [attributeTTFB metric]

/-- Sum of the four TTFB attribution components. -/
def componentSum (a : TTFBAttribution) : ℚ :=
  a.waitingTime + a.dnsTime + a.connectionTime + a.requestTime

/- Concrete inputs used in witnesses and counterexamples. -/

/-- A plain navigation metric: the scenario of §8 with `activationStart = 0`. -/
def navScenarioMetric : TTFBMetric :=
  { name := "TTFB", value := 50, delta := 50, id := "v3-100-1"
    entries := [{ activationStart := some 0, domainLookupStart := 10
                  connectStart := 12, requestStart := 15 }]
    navigationType := "navigate", attribution := none }

/-- The prerender scenario of §8: activation at 200. -/
def prerenderEntry : NavigationEntry :=
  { activationStart := some 200, domainLookupStart := 200
    connectStart := 205, requestStart := 210 }

/-- The metric of the prerender scenario. -/
def prerenderScenarioMetric : TTFBMetric :=
  { name := "TTFB", value := 20, delta := 20, id := "v3-100-2"
    entries := [prerenderEntry]
    navigationType := "prerender", attribution := none }

/-- A metric with no entries and the restore baseline value 0. -/
def restoreMetric : TTFBMetric :=
  { name := "TTFB", value := 0, delta := 0, id := "v3-100-3"
    entries := [], navigationType := "back-forward-cache", attribution := none }

/-- A metric whose raw timestamps are not chronologically ordered:
`connectStart < domainLookupStart`. -/
def unorderedMetric : TTFBMetric :=
  { name := "TTFB", value := 50, delta := 50, id := "v3-100-4"
    entries := [{ activationStart := some 0, domainLookupStart := 10
                  connectStart := 5, requestStart := 20 }]
    navigationType := "navigate", attribution := none }

/-- An entry whose timestamps all precede the activation offset. -/
def lateActivationEntry : NavigationEntry :=
  { activationStart := some 200, domainLookupStart := 190
    connectStart := 190, requestStart := 190 }

/-- A metric with a negative value paired with `lateActivationEntry`. -/
def negativeValueMetric : TTFBMetric :=
  { name := "TTFB", value := -5, delta := -5, id := "v3-100-5"
    entries := [lateActivationEntry]
    navigationType := "navigate", attribution := none }

/-- Two metrics sharing first entry and value but differing in later entries. -/
def sharedHeadMetricA : TTFBMetric :=
  { name := "TTFB", value := 50, delta := 50, id := "v3-100-6"
    entries := [{ activationStart := some 0, domainLookupStart := 10
                  connectStart := 12, requestStart := 15 }]
    navigationType := "navigate", attribution := none }

/-- Same head entry and value as `sharedHeadMetricA`, extra trailing entry. -/
def sharedHeadMetricB : TTFBMetric :=
  { name := "TTFB", value := 50, delta := 25, id := "v3-100-7"
    entries := [{ activationStart := some 0, domainLookupStart := 10
                  connectStart := 12, requestStart := 15 },
                { activationStart := some 99, domainLookupStart := 1
                  connectStart := 2, requestStart := 3 }]
    navigationType := "reload", attribution := none }

/-- A metric used to witness the ordered-timestamps nonnegativity theorem. -/
def orderedMetric : TTFBMetric :=
  { name := "TTFB", value := 40, delta := 40, id := "v3-100-8"
    entries := [{ activationStart := none, domainLookupStart := 4
                  connectStart := 6, requestStart := 9 }]
    navigationType := "navigate", attribution := none }

/- Theorems for the claims. -/

/-- Claim C1: for every TTFB metric processed by `attributeTTFB`, the four
attribution components sum to the metric's value, unconditionally when the
entries list is non-empty and under the precondition `value = 0` (the restore
baseline) when it is empty. -/
theorem attributeTTFB_components_sum_to_value (metric : TTFBMetric)
    (h : metric.entries ≠ [] ∨ metric.value = 0) :
    ∃ a, (attributeTTFB metric).attribution = some a ∧
      componentSum a = metric.value := by
  rcases he : metric.entries with _ | ⟨e, t⟩
  · rcases h with h | h
    · exact absurd he h
    · refine ⟨⟨0, 0, 0, 0⟩, ?_, ?_⟩
      · simp [attributeTTFB, he]
      · simp [componentSum, h]
  · refine ⟨⟨dnsStartOf e, connectStartOf e - dnsStartOf e,
      requestStartOf e - connectStartOf e, metric.value - requestStartOf e⟩, ?_, ?_⟩
    · simp [attributeTTFB, he]
    · simp only [componentSum]
      ring

/-- Witness for C1: the components of the plain navigation scenario sum to 50. -/
theorem attributeTTFB_components_sum_to_value_witness :
    ∃ a, (attributeTTFB navScenarioMetric).attribution = some a ∧
      componentSum a = navScenarioMetric.value :=
  attributeTTFB_components_sum_to_value navScenarioMetric
    (Or.inl (by simp [navScenarioMetric]))

/-- Counterexample for C2: with raw timestamps out of chronological order
(`connectStart = 5 < domainLookupStart = 10`), `attributeTTFB` produces a
negative `dnsTime`, so not every component is non-negative. -/
theorem attributeTTFB_negative_dnsTime :
    (attributeTTFB unorderedMetric).attribution =
      some { waitingTime := 10, dnsTime := -5
             connectionTime := 15, requestTime := 30 } ∧
    ((attributeTTFB unorderedMetric).attribution.map
      TTFBAttribution.dnsTime).getD 0 < 0 := by
  norm_num [attributeTTFB, unorderedMetric, dnsStartOf, connectStartOf,
    requestStartOf, activationStartOf]

/-- Claim C2 (amended): the clamp-to-zero policy is applied to each derived
start point, so `dnsStartOf`, `connectStartOf` and `requestStartOf` are never
negative and `waitingTime` is always non-negative; the difference components
may still be negative when raw timestamps are unordered. -/
theorem attributeTTFB_clamped_starts_nonneg (metric : TTFBMetric)
    (e : NavigationEntry) :
    (0 ≤ dnsStartOf e ∧ 0 ≤ connectStartOf e ∧ 0 ≤ requestStartOf e) ∧
    ∃ a, (attributeTTFB metric).attribution = some a ∧ 0 ≤ a.waitingTime := by
  refine ⟨⟨le_max_left 0 _, le_max_left 0 _, le_max_left 0 _⟩, ?_⟩
  rcases he : metric.entries with _ | ⟨e₀, t⟩
  · exact ⟨⟨0, 0, 0, 0⟩, by simp [attributeTTFB, he], le_refl 0⟩
  · exact ⟨⟨dnsStartOf e₀, connectStartOf e₀ - dnsStartOf e₀,
      requestStartOf e₀ - connectStartOf e₀, metric.value - requestStartOf e₀⟩,
      by simp [attributeTTFB, he], le_max_left 0 _⟩

/-- Claim C3: when the entries list is empty, `attributeTTFB` sets all four
attribution components to exactly 0. -/
theorem attributeTTFB_empty_entries_all_zero (metric : TTFBMetric)
    (h : metric.entries = []) :
    (attributeTTFB metric).attribution =
      some { waitingTime := 0, dnsTime := 0
             connectionTime := 0, requestTime := 0 } := by
  simp [attributeTTFB, h]

/-- Witness for C3: the restore-baseline metric gets the all-zero breakdown. -/
theorem attributeTTFB_empty_entries_all_zero_witness :
    (attributeTTFB restoreMetric).attribution =
      some { waitingTime := 0, dnsTime := 0
             connectionTime := 0, requestTime := 0 } :=
  attributeTTFB_empty_entries_all_zero restoreMetric rfl

/-- Claim C4: for `activationStart = 0`, starts `{10, 12, 15}` and value 50,
the attribution is `{waitingTime 10, dnsTime 2, connectionTime 3,
requestTime 35}`. -/
theorem attributeTTFB_nav_scenario :
    (attributeTTFB navScenarioMetric).attribution =
      some { waitingTime := 10, dnsTime := 2
             connectionTime := 3, requestTime := 35 } := by
  norm_num [attributeTTFB, navScenarioMetric, dnsStartOf, connectStartOf,
    requestStartOf, activationStartOf]

/-- Claim C5: for the prerender scenario (`activationStart = 200`, raw starts
`{200, 205, 210}`, value 20) the shifted-and-clamped start points are
`{0, 5, 10}` and the attribution is `{waitingTime 0, dnsTime 5,
connectionTime 5, requestTime 10}`. -/
theorem attributeTTFB_prerender_scenario :
    dnsStartOf prerenderEntry = 0 ∧
    connectStartOf prerenderEntry = 5 ∧
    requestStartOf prerenderEntry = 10 ∧
    (attributeTTFB prerenderScenarioMetric).attribution =
      some { waitingTime := 0, dnsTime := 5
             connectionTime := 5, requestTime := 10 } := by
  norm_num [attributeTTFB, prerenderScenarioMetric, prerenderEntry,
    dnsStartOf, connectStartOf, requestStartOf, activationStartOf]

/-- Claim C6: when every recorded activation offset is non-negative, the
offset used for shifting is the recorded `activationStart` when present, 0
when absent, and non-negative in both cases. -/
theorem activationStartOf_contract (e : NavigationEntry)
    (h : ∀ x, e.activationStart = some x → 0 ≤ x) :
    (∀ x, e.activationStart = some x → activationStartOf e = x) ∧
    (e.activationStart = none → activationStartOf e = 0) ∧
    0 ≤ activationStartOf e := by
  refine ⟨?_, ?_, ?_⟩
  · intro x hx
    simp [activationStartOf, hx]
  · intro hx
    simp [activationStartOf, hx]
  · rcases hx : e.activationStart with _ | x
    · simp [activationStartOf, hx]
    · simpa [activationStartOf, hx] using h x hx

/-- Witness for C6: the prerender entry's offset is non-negative. -/
theorem activationStartOf_contract_witness :
    0 ≤ activationStartOf prerenderEntry :=
  (activationStartOf_contract prerenderEntry (by
    intro x hx
    have hx200 : (200 : ℚ) = x := Option.some.inj hx
    rw [← hx200]
    norm_num)).2.2

/-- Claim C7: on each delivery from the underlying `onTTFB`, the wrapper
callback invokes `onReport` exactly once, and the delivered metric has its
attribution field set by `attributeTTFB`. -/
theorem onTTFB_reports_once_with_attribution (metric : TTFBMetric) :
    (onTTFBReportCalls metric).length = 1 ∧
    ((onTTFBReportCalls metric).all fun m => m.attribution.isSome) = true := by
  refine ⟨rfl, ?_⟩
  rcases he : metric.entries with _ | ⟨e, t⟩ <;>
    simp [onTTFBReportCalls, attributeTTFB, he]

/-- Claim C8: the attribution depends only on the first entry and the value:
two metrics with equal value and equal first entry get equal attribution. -/
theorem attributeTTFB_first_entry_authoritative (m₁ m₂ : TTFBMetric)
    (h₁ : m₁.entries ≠ []) (h₂ : m₂.entries ≠ [])
    (hhead : m₁.entries.head? = m₂.entries.head?)
    (hval : m₁.value = m₂.value) :
    (attributeTTFB m₁).attribution = (attributeTTFB m₂).attribution := by
  rcases e₁ : m₁.entries with _ | ⟨a, t₁⟩
  · exact absurd e₁ h₁
  rcases e₂ : m₂.entries with _ | ⟨b, t₂⟩
  · exact absurd e₂ h₂
  rw [e₁, e₂] at hhead
  simp only [List.head?_cons, Option.some.injEq] at hhead
  simp [attributeTTFB, e₁, e₂, hval, hhead]

/-- Witness for C8: equal head and value, different tails, equal attribution. -/
theorem attributeTTFB_first_entry_authoritative_witness :
    (attributeTTFB sharedHeadMetricA).attribution =
      (attributeTTFB sharedHeadMetricB).attribution :=
  attributeTTFB_first_entry_authoritative sharedHeadMetricA sharedHeadMetricB
    (by decide) (by decide) (by decide) (by decide)

/-- Claim C9: `attributeTTFB` changes only the attribution field; name,
value, delta, id, entries and navigationType are preserved. -/
theorem attributeTTFB_frame (metric : TTFBMetric) :
    (attributeTTFB metric).name = metric.name ∧
    (attributeTTFB metric).value = metric.value ∧
    (attributeTTFB metric).delta = metric.delta ∧
    (attributeTTFB metric).id = metric.id ∧
    (attributeTTFB metric).entries = metric.entries ∧
    (attributeTTFB metric).navigationType = metric.navigationType := by
  rcases he : metric.entries with _ | ⟨e, t⟩ <;>
    simp [attributeTTFB, he]

/-- Counterexample for C10: the stated preconditions hold for
`negativeValueMetric` (ordered timestamps, `value = -5 ≥ requestStart -
activationStart = -10`), yet `requestTime = -5 < 0`. -/
theorem attributeTTFB_ordered_counterexample :
    lateActivationEntry.domainLookupStart ≤ lateActivationEntry.connectStart ∧
    lateActivationEntry.connectStart ≤ lateActivationEntry.requestStart ∧
    lateActivationEntry.requestStart - activationStartOf lateActivationEntry ≤
      negativeValueMetric.value ∧
    (attributeTTFB negativeValueMetric).attribution =
      some { waitingTime := 0, dnsTime := 0
             connectionTime := 0, requestTime := -5 } ∧
    ((attributeTTFB negativeValueMetric).attribution.map
      TTFBAttribution.requestTime).getD 0 < 0 := by
  norm_num [attributeTTFB, negativeValueMetric, lateActivationEntry,
    dnsStartOf, connectStartOf, requestStartOf, activationStartOf]

/-- Claim C10 (amended): when the first entry's raw timestamps are ordered,
`value ≥ requestStart - activationStart`, and additionally `value ≥ 0`, each
of `dnsTime`, `connectionTime` and `requestTime` is non-negative, by
monotonicity of the clamp. -/
theorem attributeTTFB_ordered_nonneg (metric : TTFBMetric)
    (e : NavigationEntry) (t : List NavigationEntry)
    (he : metric.entries = e :: t)
    (h₁ : e.domainLookupStart ≤ e.connectStart)
    (h₂ : e.connectStart ≤ e.requestStart)
    (h₃ : e.requestStart - activationStartOf e ≤ metric.value)
    (h₄ : 0 ≤ metric.value) :
    ∃ a, (attributeTTFB metric).attribution = some a ∧
      0 ≤ a.dnsTime ∧ 0 ≤ a.connectionTime ∧ 0 ≤ a.requestTime := by
  refine ⟨⟨dnsStartOf e, connectStartOf e - dnsStartOf e,
    requestStartOf e - connectStartOf e, metric.value - requestStartOf e⟩,
    by simp [attributeTTFB, he], ?_, ?_, ?_⟩
  · simp only [dnsStartOf, connectStartOf, sub_nonneg]
    exact max_le_max le_rfl (sub_le_sub_right h₁ _)
  · simp only [connectStartOf, requestStartOf, sub_nonneg]
    exact max_le_max le_rfl (sub_le_sub_right h₂ _)
  · simp only [requestStartOf, sub_nonneg]
    exact max_le h₄ h₃

/-- Witness for C10 (amended): ordered timestamps with value 40 give
non-negative components. -/
theorem attributeTTFB_ordered_nonneg_witness :
    ∃ a, (attributeTTFB orderedMetric).attribution = some a ∧
      0 ≤ a.dnsTime ∧ 0 ≤ a.connectionTime ∧ 0 ≤ a.requestTime :=
  attributeTTFB_ordered_nonneg orderedMetric
    { activationStart := none, domainLookupStart := 4
      connectStart := 6, requestStart := 9 } []
    rfl (by norm_num) (by norm_num)
    (by norm_num [activationStartOf, orderedMetric]) (by norm_num [orderedMetric])

end WebVitals
